import Mathlib

/-!
Shallow embedding of the instance lifecycle controller of `gh-workflow`
(`src/main.go`): the launch path `createEC2Instance`, the teardown path
`terminateEC2Instance` with its graceful retry loop and forced two-tier
fallback, the terminal polling loop `waitForInstanceTermination`, and the
flag validation of the `terminate` command.

The cloud provider and the CI platform are modelled as oracles: each
provider call the Go code makes is one field of an oracle record, holding
the response that call would return (`Except` for success/failure, indexed
by call number where the code calls the same operation repeatedly).
Besides the final result, the embedding returns a trace recording how many
describe / terminate / stop calls were issued, which sleeps were performed
(in seconds), and the timeout budget handed to the terminal wait, so that
theorems can speak about calls made and budgets used.
-/

/-- Whether the character list starts with the pattern list. -/
def charsStartWith : List Char → List Char → Bool
  | [], _ => true
  | _ :: _, [] => false
  | p :: ps, c :: cs => p == c && charsStartWith ps cs

/-- Whether the pattern occurs as a contiguous run somewhere in the list. -/
def charsContain (pat : List Char) : List Char → Bool
  | [] => charsStartWith pat []
  | c :: cs => charsStartWith pat (c :: cs) || charsContain pat cs

/-- Mirrors Go `strings.Contains s pat`: substring containment, checking
an occurrence at every suffix (true on an empty pattern, as in Go). -/
def containsSubstr (s pat : String) : Bool :=
  charsContain pat.toList s.toList

/-- The slice of `types.Instance` the controller reads: the lifecycle
state string (`State.Name` on describe, `CurrentState.Name` on terminate). -/
structure EC2Instance where
  state : String
deriving DecidableEq, Repr

/-- Responses of the provider calls `terminateEC2Instance` and
`waitForInstanceTermination` can make.  `describeResult` is the initial
`DescribeInstances` answer as a list of reservations, each a list of
instances; `terminateResults k` is the answer of the `k`-th
`TerminateInstances` call (0-based); `stopResult` answers the forced
`StopInstances`; `waitOracle k` is the `k`-th `DescribeInstances` answer
inside the terminal polling loop. -/
structure TerminateOracle where
  describeResult : Except String (List (List EC2Instance))
  terminateResults : Nat → Except String (List EC2Instance)
  stopResult : Except String Unit
  waitOracle : Nat → Except String (List (List EC2Instance))

deriving instance DecidableEq for Except

/-- Result of a teardown run together with the calls it issued. -/
structure TermTrace where
  result : Except String Unit
  describeCalls : Nat
  terminateCalls : Nat
  stopCalls : Nat
  sleeps : List Nat
  waitBudget : Option Nat
deriving DecidableEq, Repr

/-- One tick of the polling loop in `waitForInstanceTermination`
(src/main.go:643-684): the body of `case <-ticker.C`.  `some r` means the
loop returns `r`; `none` means the loop keeps polling. -/
def waitPoll (instanceID : String) (resp : Except String (List (List EC2Instance))) :
    Option (Except String Unit) :=
  match resp with
  | .error e =>
      if containsSubstr e "InvalidInstanceId.NotFound" then
        some (.ok ())
      else
        some (.error ("error checking instance state: " ++ e))
  | .ok reservations =>
      match reservations with
      | (inst :: _) :: _ =>
          let state := inst.state
          if state = "terminated" then
            some (.ok ())
          else if state = "shutting-down" ∨ state = "stopping" then
            none
          else if state ≠ "running" ∧ state ≠ "pending" ∧ state ≠ "stopping" ∧
              state ≠ "stopped" ∧ state ≠ "shutting-down" then
            some (.error ("instance " ++ instanceID ++ " is in unexpected state: " ++ state))
          else
            none
      | _ => none

/-- The polling loop of `waitForInstanceTermination`, with the remaining
number of ticks made explicit (`fuel`) and `k` the index of the next
describe answer; exhausting the fuel is the `<-timeout` branch. -/
def waitLoop (instanceID : String) (timeoutSeconds : Nat)
    (oracle : Nat → Except String (List (List EC2Instance))) :
    Nat → Nat → Except String Unit
  | 0, _ =>
      .error ("timeout waiting for instance " ++ instanceID ++ " to terminate after " ++
        toString timeoutSeconds ++ " seconds")
  | fuel + 1, k =>
      match waitPoll instanceID (oracle k) with
      | some r => r
      | none => waitLoop instanceID timeoutSeconds oracle fuel (k + 1)

/-- `waitForInstanceTermination` (src/main.go:625-687): ticks every 10
seconds until the `timeoutSeconds` timeout fires, so the loop runs at most
`timeoutSeconds / 10` polls. -/
def waitForInstanceTermination (instanceID : String) (timeoutSeconds : Nat)
    (oracle : Nat → Except String (List (List EC2Instance))) : Except String Unit :=
  waitLoop instanceID timeoutSeconds oracle (timeoutSeconds / 10) 0

/-- The effective terminal-wait budget of the forced path
(src/main.go:564-567 and 610-613): `timeoutSeconds / 2`, floored at 120. -/
def forceTimeoutOf (timeoutSeconds : Nat) : Nat :=
  let forceTimeout := timeoutSeconds / 2
  if forceTimeout < 120 then 120 else forceTimeout

/-- The graceful retry loop of `terminateEC2Instance`
(src/main.go:491-540, `for attempt := 1; attempt <= maxRetries; attempt++`),
rendered with the still-pending attempt numbers as a list (the entry point
passes `[1, 2, 3]` for `maxRetries = 3`).  Falling off the end of the loop
reaches the shared closing `return` of the function (src/main.go:618-622). -/
def gracefulLoop (instanceID currentState : String) (timeoutSeconds maxRetries : Nat)
    (o : TerminateOracle) : List Nat → List Nat → TermTrace
  | [], sleeps =>
      { result := .error ("force termination failed for instance " ++ instanceID ++
          ": unexpected response from terminate instances API"),
        describeCalls := 1, terminateCalls := maxRetries, stopCalls := 0,
        sleeps := sleeps, waitBudget := none }
  | attempt :: restAttempts, sleeps =>
      match o.terminateResults (attempt - 1) with
      | .error e =>
          if containsSubstr e "IncorrectInstanceState" then
            { result := .error ("instance " ++ instanceID ++ " is in state " ++ currentState ++
                " and cannot be terminated gracefully"),
              describeCalls := 1, terminateCalls := attempt, stopCalls := 0,
              sleeps := sleeps, waitBudget := none }
          else if attempt < maxRetries then
            gracefulLoop instanceID currentState timeoutSeconds maxRetries o
              restAttempts (sleeps ++ [attempt])
          else
            { result := .error ("failed to terminate instance " ++ instanceID ++ " after " ++
                toString maxRetries ++ " attempts: " ++ e),
              describeCalls := 1, terminateCalls := attempt, stopCalls := 0,
              sleeps := sleeps, waitBudget := none }
      | .ok terminating =>
          match terminating with
          | [] =>
              gracefulLoop instanceID currentState timeoutSeconds maxRetries o
                restAttempts sleeps
          | _ :: _ =>
              { result := waitForInstanceTermination instanceID timeoutSeconds o.waitOracle,
                describeCalls := 1, terminateCalls := attempt, stopCalls := 0,
                sleeps := sleeps, waitBudget := some timeoutSeconds }

/-- The forced path of `terminateEC2Instance` (src/main.go:541-616):
method 1 is a direct terminate; when it does not yield a terminating
instance, method 2 force-stops (sleeping 10 s when the stop succeeded) and
terminates again. -/
def forcePath (instanceID : String) (timeoutSeconds : Nat) (o : TerminateOracle) : TermTrace :=
  match o.terminateResults 0 with
  | .ok (_inst :: _rest) =>
      { result := waitForInstanceTermination instanceID (forceTimeoutOf timeoutSeconds)
          o.waitOracle,
        describeCalls := 1, terminateCalls := 1, stopCalls := 0,
        sleeps := [], waitBudget := some (forceTimeoutOf timeoutSeconds) }
  | _ =>
      let stopSleeps : List Nat :=
        match o.stopResult with
        | .error _ => []
        | .ok _ => [10]
      match o.terminateResults 1 with
      | .error e =>
          { result := .error ("force termination failed for instance " ++ instanceID ++
              ": " ++ e),
            describeCalls := 1, terminateCalls := 2, stopCalls := 1,
            sleeps := stopSleeps, waitBudget := none }
      | .ok [] =>
          { result := .error ("force termination failed for instance " ++ instanceID ++
              ": unexpected response from terminate instances API"),
            describeCalls := 1, terminateCalls := 2, stopCalls := 1,
            sleeps := stopSleeps, waitBudget := none }
      | .ok (_ :: _) =>
          { result := waitForInstanceTermination instanceID (forceTimeoutOf timeoutSeconds)
              o.waitOracle,
            describeCalls := 1, terminateCalls := 2, stopCalls := 1,
            sleeps := stopSleeps, waitBudget := some (forceTimeoutOf timeoutSeconds) }

/-- `terminateEC2Instance` (src/main.go:426-622): describe the instance,
short-circuit on the already-terminal states, refuse ineligible states,
then run the graceful retry loop or the forced path. -/
def terminateEC2Instance (instanceID : String) (force : Bool) (timeoutSeconds : Nat)
    (o : TerminateOracle) : TermTrace :=
  match o.describeResult with
  | .error e =>
      { result := .error ("failed to find instance " ++ instanceID ++ ": " ++ e),
        describeCalls := 1, terminateCalls := 0, stopCalls := 0,
        sleeps := [], waitBudget := none }
  | .ok reservations =>
      match reservations with
      | (inst :: _) :: _ =>
          let currentState := inst.state
          if currentState = "terminated" then
            { result := .ok (), describeCalls := 1, terminateCalls := 0, stopCalls := 0,
              sleeps := [], waitBudget := none }
          else if currentState = "shutting-down" then
            { result := waitForInstanceTermination instanceID timeoutSeconds o.waitOracle,
              describeCalls := 1, terminateCalls := 0, stopCalls := 0,
              sleeps := [], waitBudget := some timeoutSeconds }
          else if currentState ≠ "running" ∧ currentState ≠ "stopping" ∧
              currentState ≠ "stopped" then
            { result := .error ("instance " ++ instanceID ++ " is in state " ++ currentState ++
                " and cannot be terminated"),
              describeCalls := 1, terminateCalls := 0, stopCalls := 0,
              sleeps := [], waitBudget := none }
          else if force = false then
            gracefulLoop instanceID currentState timeoutSeconds 3 o [1, 2, 3] []
          else
            forcePath instanceID timeoutSeconds o
      | _ =>
          { result := .error ("instance " ++ instanceID ++ " not found"),
            describeCalls := 1, terminateCalls := 0, stopCalls := 0,
            sleeps := [], waitBudget := none }

/-- Responses of the external calls `createEC2Instance` makes:
the GitHub registration-token fetch, the EC2 client construction, the
`RunInstances` call (its `Instances` list on success), and the
running-state waiter. -/
structure LaunchOracle where
  registrationToken : Except String String
  ec2Client : Except String Unit
  runInstances : Except String (List EC2Instance)
  runningWaiter : Except String Unit

/-- `createEC2Instance` (src/main.go:253-423): token, client, launch; on a
non-empty instance list the running-state wait runs but its outcome is only
reported, never returned; the function ends in `return nil`. -/
def createEC2Instance (o : LaunchOracle) : Except String Unit :=
  match o.registrationToken with
  | .error e => .error ("failed to get GitHub registration token: " ++ e)
  | .ok _ =>
      match o.ec2Client with
      | .error e => .error e
      | .ok _ =>
          match o.runInstances with
          | .error e => .error ("failed to create EC2 instance: " ++ e)
          | .ok instances =>
              match instances with
              | [] => .ok ()
              | _ :: _ =>
                  match o.runningWaiter with
                  | .error _ => .ok ()
                  | .ok _ => .ok ()

/-- The flag validation of the `terminate` command (src/main.go:752-763):
instance id required, then the timeout range check, before
`terminateEC2Instance` is called.  The timeout flag is a Go `int`. -/
def terminateCmdValidate (instanceID : String) (terminationTimeout : Int) :
    Except String Unit :=
  if instanceID = "" then
    .error "instance-id is required"
  else if terminationTimeout < 60 then
    .error "timeout must be at least 60 seconds"
  else if terminationTimeout > 3600 then
    .error "timeout cannot exceed 3600 seconds (1 hour)"
  else
    .ok ()

/-- The `RunE` of the `terminate` command (src/main.go:752-773): validate,
then call `terminateEC2Instance`; a validation failure issues no provider
call at all. -/
def terminateCmdRunE (instanceID : String) (force : Bool) (terminationTimeout : Int)
    (o : TerminateOracle) : TermTrace :=
  match terminateCmdValidate instanceID terminationTimeout with
  | .error e =>
      { result := .error e, describeCalls := 0, terminateCalls := 0, stopCalls := 0,
        sleeps := [], waitBudget := none }
  | .ok _ => terminateEC2Instance instanceID force terminationTimeout.toNat o

/-! ### Concrete oracles used by the witnesses -/

/-- An oracle whose describe answer is a single reservation holding a
single instance in state `s`, with the given terminate answers; stop
succeeds, and the wait oracle always reports `terminated`. -/
def mkOracle (s : String) (tr : Nat → Except String (List EC2Instance)) : TerminateOracle :=
  { describeResult := .ok [[{ state := s }]],
    terminateResults := tr,
    stopResult := .ok (),
    waitOracle := fun _ => .ok [[{ state := "terminated" }]] }

/-- A running instance whose terminate calls all succeed. -/
def okTermOracle : TerminateOracle :=
  mkOracle "running" (fun _ => .ok [{ state := "shutting-down" }])

/-- A running instance whose terminate calls all fail with a
state-conflict error. -/
def conflictOracle : TerminateOracle :=
  mkOracle "running" (fun _ => .error "api error: IncorrectInstanceState for call")

/-- A running instance whose first terminate call fails with a generic
error and whose second fails with a state-conflict error. -/
def lateConflictOracle : TerminateOracle :=
  mkOracle "running"
    (fun k => if k = 0 then .error "RequestLimitExceeded"
              else .error "api error: IncorrectInstanceState for call")

/-- A running instance whose terminate calls all fail with a generic
error. -/
def genericFailOracle : TerminateOracle :=
  mkOracle "running" (fun _ => .error "RequestLimitExceeded")

/-- A running instance whose first forced terminate fails and whose
second, after the forced stop, succeeds. -/
def forcedRetryOracle : TerminateOracle :=
  mkOracle "running"
    (fun k => if k = 0 then .error "ServerInternal"
              else .ok [{ state := "shutting-down" }])

/-- An instance already terminated. -/
def terminatedOracle : TerminateOracle :=
  mkOracle "terminated" (fun _ => .ok [])

/-- An instance still pending. -/
def pendingOracle : TerminateOracle :=
  mkOracle "pending" (fun _ => .ok [])

/-- A running instance whose terminate calls succeed at the provider level
but return an empty terminating-instances list. -/
def emptyRespOracle : TerminateOracle :=
  mkOracle "running" (fun _ => .ok [])

/-- A wait-loop describe answer reporting a state outside the known set. -/
def limboWaitOracle : Nat → Except String (List (List EC2Instance)) :=
  fun _ => .ok [[{ state := "limbo" }]]

/-- A wait-loop describe answer failing with the not-found error. -/
def notFoundWaitOracle : Nat → Except String (List (List EC2Instance)) :=
  fun _ => .error "InvalidInstanceId.NotFound: i-a"

/-- A launch whose provider call succeeds but returns no instances. -/
def launchEmptyOracle : LaunchOracle :=
  { registrationToken := .ok "reg-token", ec2Client := .ok (),
    runInstances := .ok [], runningWaiter := .ok () }

/-! ### Helper lemmas -/

/-- The graceful retry loop never issues more terminate calls than
`maxRetries`, whatever the provider answers. -/
theorem gracefulLoop_terminateCalls_le (id s : String) (t m : Nat) (o : TerminateOracle)
    (attempts : List Nat) :
    ∀ sleeps : List Nat, (∀ a ∈ attempts, a ≤ m) →
      (gracefulLoop id s t m o attempts sleeps).terminateCalls ≤ m := by
  induction attempts with
  | nil => intro sleeps _; simp [gracefulLoop]
  | cons a rest ih =>
      intro sleeps hb
      have ha : a ≤ m := hb a (by simp)
      have hrest : ∀ x ∈ rest, x ≤ m := fun x hx => hb x (by simp [hx])
      cases h0 : o.terminateResults (a - 1) with
      | error e =>
          by_cases hc : containsSubstr e "IncorrectInstanceState" = true
          · simp [gracefulLoop, h0, hc, ha]
          · by_cases hlt : a < m
            · simpa [gracefulLoop, h0, hc, hlt] using ih (sleeps ++ [a]) hrest
            · simp [gracefulLoop, h0, hc, hlt, ha]
      | ok terminating =>
          cases terminating with
          | nil => simpa [gracefulLoop, h0] using ih sleeps hrest
          | cons x xs => simp [gracefulLoop, h0, ha]

/-- The forced-path budget computation equals `max (t / 2) 120`. -/
theorem forceTimeoutOf_eq_max (t : Nat) : forceTimeoutOf t = max (t / 2) 120 := by
  simp only [forceTimeoutOf, Nat.max_def]
  split_ifs <;> omega

/-! ### Claims -/

/-- Claim C1, counterexample: a launch whose provider call returns an
empty instance list makes `createEC2Instance` return success, not an
error — the claim as stated is false on the code. -/
theorem launch_empty_instances_cex :
    launchEmptyOracle.runInstances = .ok [] ∧
    createEC2Instance launchEmptyOracle = .ok () :=
  ⟨rfl, rfl⟩

/-- Claim C1 as amended: in the launch path, when the provider launch call
returns an empty instance list, `createEC2Instance` skips the post-launch
reporting and the running-state wait and returns success (nil); no error
is raised. -/
theorem launch_empty_instances_success (tok : String) (w : Except String Unit) :
    createEC2Instance
      { registrationToken := .ok tok, ec2Client := .ok (),
        runInstances := .ok [], runningWaiter := w } = .ok () := rfl

/-- Claim C2: in graceful termination (force = false) of an instance in an
eligible state, (1) at most 3 terminate calls are issued; (2) a
state-conflict provider error on the first attempt aborts immediately with
one call, no sleep and a graceful-failure error; (3) likewise a conflict
on the second attempt stops right there, after the single 1-second backoff
of the first failure; (4) three generic provider errors give one terminate
call per attempt with linear backoff sleeps of 1 and 2 seconds and a final
failed-after-3-attempts error. -/
theorem graceful_retry_policy :
    (∀ (id : String) (t : Nat) (o : TerminateOracle) (i : EC2Instance)
        (l : List EC2Instance) (rs : List (List EC2Instance)),
      o.describeResult = .ok ((i :: l) :: rs) →
      (i.state = "running" ∨ i.state = "stopping" ∨ i.state = "stopped") →
      (terminateEC2Instance id false t o).terminateCalls ≤ 3) ∧
    (∀ (id : String) (t : Nat) (o : TerminateOracle) (i : EC2Instance)
        (l : List EC2Instance) (rs : List (List EC2Instance)) (e : String),
      o.describeResult = .ok ((i :: l) :: rs) →
      (i.state = "running" ∨ i.state = "stopping" ∨ i.state = "stopped") →
      o.terminateResults 0 = .error e →
      containsSubstr e "IncorrectInstanceState" = true →
      terminateEC2Instance id false t o =
        { result := .error ("instance " ++ id ++ " is in state " ++ i.state ++
            " and cannot be terminated gracefully"),
          describeCalls := 1, terminateCalls := 1, stopCalls := 0,
          sleeps := [], waitBudget := none }) ∧
    (∀ (id : String) (t : Nat) (o : TerminateOracle) (i : EC2Instance)
        (l : List EC2Instance) (rs : List (List EC2Instance)) (e0 e1 : String),
      o.describeResult = .ok ((i :: l) :: rs) →
      (i.state = "running" ∨ i.state = "stopping" ∨ i.state = "stopped") →
      o.terminateResults 0 = .error e0 →
      containsSubstr e0 "IncorrectInstanceState" = false →
      o.terminateResults 1 = .error e1 →
      containsSubstr e1 "IncorrectInstanceState" = true →
      terminateEC2Instance id false t o =
        { result := .error ("instance " ++ id ++ " is in state " ++ i.state ++
            " and cannot be terminated gracefully"),
          describeCalls := 1, terminateCalls := 2, stopCalls := 0,
          sleeps := [1], waitBudget := none }) ∧
    (∀ (id : String) (t : Nat) (o : TerminateOracle) (i : EC2Instance)
        (l : List EC2Instance) (rs : List (List EC2Instance)) (e0 e1 e2 : String),
      o.describeResult = .ok ((i :: l) :: rs) →
      (i.state = "running" ∨ i.state = "stopping" ∨ i.state = "stopped") →
      o.terminateResults 0 = .error e0 →
      containsSubstr e0 "IncorrectInstanceState" = false →
      o.terminateResults 1 = .error e1 →
      containsSubstr e1 "IncorrectInstanceState" = false →
      o.terminateResults 2 = .error e2 →
      containsSubstr e2 "IncorrectInstanceState" = false →
      terminateEC2Instance id false t o =
        { result := .error ("failed to terminate instance " ++ id ++
            " after 3 attempts: " ++ e2),
          describeCalls := 1, terminateCalls := 3, stopCalls := 0,
          sleeps := [1, 2], waitBudget := none }) := by
  refine ⟨?_, ?_, ?_, ?_⟩
  · intro id t o i l rs h hs
    rcases hs with hs | hs | hs <;>
    · simp [terminateEC2Instance, h, hs]
      exact gracefulLoop_terminateCalls_le _ _ _ _ _ _ _ (by decide)
  · intro id t o i l rs e h hs h0 hc
    rcases hs with hs | hs | hs <;>
      simp [terminateEC2Instance, gracefulLoop, h, hs, h0, hc]
  · intro id t o i l rs e0 e1 h hs h0 hc0 h1 hc1
    rcases hs with hs | hs | hs <;>
      simp [terminateEC2Instance, gracefulLoop, h, hs, h0, hc0, h1, hc1]
  · intro id t o i l rs e0 e1 e2 h hs h0 hc0 h1 hc1 h2 hc2
    have h3 : (toString (3 : Nat)) = "3" := rfl
    rcases hs with hs | hs | hs <;>
      simp [terminateEC2Instance, gracefulLoop, h, hs, h0, hc0, h1, hc1, h2, hc2,
        h3, String.append_assoc]

/-- Claim C2, witness: the four parts of `graceful_retry_policy` at
concrete oracles. -/
theorem graceful_retry_policy_witness :
    (terminateEC2Instance "i-a" false 300 okTermOracle).terminateCalls ≤ 3 ∧
    terminateEC2Instance "i-a" false 300 conflictOracle =
      { result := .error "instance i-a is in state running and cannot be terminated gracefully",
        describeCalls := 1, terminateCalls := 1, stopCalls := 0,
        sleeps := [], waitBudget := none } ∧
    terminateEC2Instance "i-a" false 300 lateConflictOracle =
      { result := .error "instance i-a is in state running and cannot be terminated gracefully",
        describeCalls := 1, terminateCalls := 2, stopCalls := 0,
        sleeps := [1], waitBudget := none } ∧
    terminateEC2Instance "i-a" false 300 genericFailOracle =
      { result := .error "failed to terminate instance i-a after 3 attempts: RequestLimitExceeded",
        describeCalls := 1, terminateCalls := 3, stopCalls := 0,
        sleeps := [1, 2], waitBudget := none } := by
  refine ⟨?_, ?_, ?_, ?_⟩
  · exact graceful_retry_policy.1 "i-a" 300 okTermOracle _ [] []
      rfl (Or.inl rfl)
  · exact graceful_retry_policy.2.1 "i-a" 300 conflictOracle _ [] [] _
      rfl (Or.inl rfl) rfl (by decide)
  · exact graceful_retry_policy.2.2.1 "i-a" 300 lateConflictOracle _ [] [] _ _
      rfl (Or.inl rfl) rfl (by decide) rfl (by decide)
  · exact graceful_retry_policy.2.2.2 "i-a" 300 genericFailOracle _ [] [] _ _ _
      rfl (Or.inl rfl) rfl (by decide) rfl (by decide) rfl (by decide)

/-- Claim C3: in forced termination (force = true) of an eligible
instance, whenever a terminate call yields a terminating instance — on the
direct attempt, or on the retry after the forced stop — the terminal wait
is entered with budget max(timeout / 2, 120) seconds; in particular
timeout = 300 gives 150 seconds and timeout = 60 gives 120 seconds. -/
theorem forced_wait_budget :
    (∀ (id : String) (t : Nat) (o : TerminateOracle) (i : EC2Instance)
        (l : List EC2Instance) (rs : List (List EC2Instance))
        (j : EC2Instance) (js : List EC2Instance),
      o.describeResult = .ok ((i :: l) :: rs) →
      (i.state = "running" ∨ i.state = "stopping" ∨ i.state = "stopped") →
      o.terminateResults 0 = .ok (j :: js) →
      (terminateEC2Instance id true t o).waitBudget = some (max (t / 2) 120)) ∧
    (∀ (id : String) (t : Nat) (o : TerminateOracle) (i : EC2Instance)
        (l : List EC2Instance) (rs : List (List EC2Instance)) (e : String)
        (j : EC2Instance) (js : List EC2Instance),
      o.describeResult = .ok ((i :: l) :: rs) →
      (i.state = "running" ∨ i.state = "stopping" ∨ i.state = "stopped") →
      o.terminateResults 0 = .error e →
      o.terminateResults 1 = .ok (j :: js) →
      (terminateEC2Instance id true t o).waitBudget = some (max (t / 2) 120)) ∧
    forceTimeoutOf 300 = 150 ∧ forceTimeoutOf 60 = 120 := by
  refine ⟨?_, ?_, rfl, rfl⟩
  · intro id t o i l rs j js h hs h0
    rcases hs with hs | hs | hs <;>
      simp [terminateEC2Instance, forcePath, h, hs, h0, forceTimeoutOf_eq_max]
  · intro id t o i l rs e j js h hs h0 h1
    rcases hs with hs | hs | hs <;>
      simp [terminateEC2Instance, forcePath, h, hs, h0, h1, forceTimeoutOf_eq_max]

/-- Claim C3, witness: both parts of `forced_wait_budget` at concrete
oracles, with timeout 300 on the direct path and timeout 60 on the
stop-then-terminate path. -/
theorem forced_wait_budget_witness :
    (terminateEC2Instance "i-a" true 300 okTermOracle).waitBudget = some 150 ∧
    (terminateEC2Instance "i-a" true 60 forcedRetryOracle).waitBudget = some 120 := by
  constructor
  · exact forced_wait_budget.1 "i-a" 300 okTermOracle _ [] [] _ []
      rfl (Or.inl rfl) rfl
  · exact forced_wait_budget.2.1 "i-a" 60 forcedRetryOracle _ [] [] _ _ []
      rfl (Or.inl rfl) rfl rfl

/-- Claim C4: an instance whose described state is terminated makes
`terminateEC2Instance` return success immediately, with no terminate or
stop call, no sleep and no terminal wait. -/
theorem terminate_already_terminated_noop (id : String) (force : Bool) (t : Nat)
    (o : TerminateOracle) (i : EC2Instance) (l : List EC2Instance)
    (rs : List (List EC2Instance))
    (h : o.describeResult = .ok ((i :: l) :: rs))
    (hs : i.state = "terminated") :
    terminateEC2Instance id force t o =
      { result := .ok (), describeCalls := 1, terminateCalls := 0, stopCalls := 0,
        sleeps := [], waitBudget := none } := by
  simp [terminateEC2Instance, h, hs]

/-- Claim C4, witness: `terminate_already_terminated_noop` on a concrete
already-terminated instance. -/
theorem terminate_already_terminated_noop_witness :
    terminateEC2Instance "i-a" false 300 terminatedOracle =
      { result := .ok (), describeCalls := 1, terminateCalls := 0, stopCalls := 0,
        sleeps := [], waitBudget := none } :=
  terminate_already_terminated_noop "i-a" false 300 terminatedOracle _ [] [] rfl rfl

/-- Claim C5: an instance whose described state is outside
terminated / shutting-down / running / stopping / stopped — pending in
particular — makes `terminateEC2Instance` fail with the invalid-state
error without issuing any terminate or stop call. -/
theorem terminate_invalid_state_refused (id : String) (force : Bool) (t : Nat)
    (o : TerminateOracle) (i : EC2Instance) (l : List EC2Instance)
    (rs : List (List EC2Instance))
    (h : o.describeResult = .ok ((i :: l) :: rs))
    (hns : i.state ∉ (["terminated", "shutting-down", "running", "stopping",
      "stopped"] : List String)) :
    terminateEC2Instance id force t o =
      { result := .error ("instance " ++ id ++ " is in state " ++ i.state ++
          " and cannot be terminated"),
        describeCalls := 1, terminateCalls := 0, stopCalls := 0,
        sleeps := [], waitBudget := none } := by
  simp only [List.mem_cons, List.mem_singleton, not_or] at hns
  obtain ⟨n1, n2, n3, n4, n5⟩ := hns
  simp [terminateEC2Instance, h, n1, n2, n3, n4, n5]

/-- Claim C5, witness: `terminate_invalid_state_refused` on a concrete
pending instance. -/
theorem terminate_invalid_state_refused_witness :
    terminateEC2Instance "i-a" false 300 pendingOracle =
      { result := .error "instance i-a is in state pending and cannot be terminated",
        describeCalls := 1, terminateCalls := 0, stopCalls := 0,
        sleeps := [], waitBudget := none } :=
  terminate_invalid_state_refused "i-a" false 300 pendingOracle _ [] [] rfl (by decide)

/-- Claim C6: when the terminal wait still has ticks left and a poll
observes a state outside the known set (running, pending, stopping,
stopped, shutting-down, terminated), the wait fails right there with the
unexpected-state error instead of polling on. -/
theorem wait_unexpected_state_fails (id : String) (t fuel k : Nat)
    (oracle : Nat → Except String (List (List EC2Instance)))
    (i : EC2Instance) (l : List EC2Instance) (rs : List (List EC2Instance))
    (ho : oracle k = .ok ((i :: l) :: rs))
    (hns : i.state ∉ (["running", "pending", "stopping", "stopped",
      "shutting-down", "terminated"] : List String)) :
    waitLoop id t oracle (fuel + 1) k =
      .error ("instance " ++ id ++ " is in unexpected state: " ++ i.state) := by
  simp only [List.mem_cons, List.mem_singleton, not_or] at hns
  obtain ⟨n1, n2, n3, n4, n5, n6⟩ := hns
  simp [waitLoop, waitPoll, ho, n1, n2, n3, n4, n5, n6]

/-- Claim C6, witness: `wait_unexpected_state_fails` on a concrete poll
answer in the unknown state limbo. -/
theorem wait_unexpected_state_fails_witness :
    waitLoop "i-a" 300 limboWaitOracle 1 0 =
      .error "instance i-a is in unexpected state: limbo" :=
  wait_unexpected_state_fails "i-a" 300 0 0 limboWaitOracle _ [] [] rfl (by decide)

/-- Claim C7: when a poll of the terminal wait fails with an error
containing InvalidInstanceId.NotFound, the wait returns success — the
instance is treated as already terminated. -/
theorem wait_not_found_is_success (id : String) (t fuel k : Nat)
    (oracle : Nat → Except String (List (List EC2Instance))) (e : String)
    (ho : oracle k = .error e)
    (hc : containsSubstr e "InvalidInstanceId.NotFound" = true) :
    waitLoop id t oracle (fuel + 1) k = .ok () := by
  simp [waitLoop, waitPoll, ho, hc]

/-- Claim C7, witness: `wait_not_found_is_success` on a concrete
not-found describe failure. -/
theorem wait_not_found_is_success_witness :
    waitLoop "i-a" 300 notFoundWaitOracle 1 0 = .ok () :=
  wait_not_found_is_success "i-a" 300 0 0 notFoundWaitOracle _ rfl (by decide)

/-- Claim C8, part one: a timeout below 60 or above 3600 makes the
terminate command fail during validation, with no describe, terminate or
stop call issued; part two: with an instance id present, every timeout
from 60 through 3600 passes validation and the command proceeds to
`terminateEC2Instance`. -/
theorem terminate_timeout_validation :
    (∀ (id : String) (force : Bool) (t : Int) (o : TerminateOracle),
      (t < 60 ∨ 3600 < t) →
      (∃ e, (terminateCmdRunE id force t o).result = .error e) ∧
      (terminateCmdRunE id force t o).describeCalls = 0 ∧
      (terminateCmdRunE id force t o).terminateCalls = 0 ∧
      (terminateCmdRunE id force t o).stopCalls = 0) ∧
    (∀ (id : String) (force : Bool) (t : Int) (o : TerminateOracle),
      id ≠ "" → 60 ≤ t → t ≤ 3600 →
      terminateCmdRunE id force t o = terminateEC2Instance id force t.toNat o) := by
  constructor
  · intro id force t o ht
    by_cases hid : id = ""
    · simp [terminateCmdRunE, terminateCmdValidate, hid]
    · rcases ht with ht | ht
      · simp [terminateCmdRunE, terminateCmdValidate, hid, ht]
      · have h1 : ¬t < 60 := by omega
        simp [terminateCmdRunE, terminateCmdValidate, hid, h1, ht]
  · intro id force t o hid h1 h2
    have h3 : ¬t < 60 := by omega
    have h4 : ¬t > 3600 := by omega
    simp [terminateCmdRunE, terminateCmdValidate, hid, h3, h4]

/-- Claim C8, witness: both parts of `terminate_timeout_validation` at
concrete inputs — timeout 30 is rejected with no provider call, timeout
3601 is rejected with no provider call, timeout 300 flows through to
`terminateEC2Instance`. -/
theorem terminate_timeout_validation_witness :
    ((∃ e, (terminateCmdRunE "i-a" false 30 terminatedOracle).result = .error e) ∧
      (terminateCmdRunE "i-a" false 30 terminatedOracle).describeCalls = 0 ∧
      (terminateCmdRunE "i-a" false 30 terminatedOracle).terminateCalls = 0 ∧
      (terminateCmdRunE "i-a" false 30 terminatedOracle).stopCalls = 0) ∧
    ((∃ e, (terminateCmdRunE "i-a" false 3601 terminatedOracle).result = .error e) ∧
      (terminateCmdRunE "i-a" false 3601 terminatedOracle).describeCalls = 0 ∧
      (terminateCmdRunE "i-a" false 3601 terminatedOracle).terminateCalls = 0 ∧
      (terminateCmdRunE "i-a" false 3601 terminatedOracle).stopCalls = 0) ∧
    terminateCmdRunE "i-a" false 300 terminatedOracle =
      terminateEC2Instance "i-a" false 300 terminatedOracle := by
  refine ⟨?_, ?_, ?_⟩
  · exact terminate_timeout_validation.1 "i-a" false 30 terminatedOracle
      (Or.inl (by decide))
  · exact terminate_timeout_validation.1 "i-a" false 3601 terminatedOracle
      (Or.inr (by decide))
  · exact terminate_timeout_validation.2 "i-a" false 300 terminatedOracle
      (by decide) (by decide) (by decide)

/-- Claim C9: in the launch path, when the bounded wait for the running
state fails, `createEC2Instance` still returns success — the wait failure
is reported only, never propagated. -/
theorem launch_wait_failure_soft (tok e : String) (j : EC2Instance)
    (js : List EC2Instance) :
    createEC2Instance
      { registrationToken := .ok tok, ec2Client := .ok (),
        runInstances := .ok (j :: js), runningWaiter := .error e } = .ok () := rfl

/-- Claim C10: in graceful termination (force = false) of a running
instance, when every terminate call succeeds at the provider level but
returns an empty terminating-instances list, the loop runs its 3
iterations with no backoff sleep and falls through to the closing error,
whose message describes a force-termination failure although force was
false. -/
theorem graceful_empty_response_fallthrough (id : String) (t : Nat)
    (o : TerminateOracle) (i : EC2Instance) (l : List EC2Instance)
    (rs : List (List EC2Instance))
    (h : o.describeResult = .ok ((i :: l) :: rs))
    (hs : i.state = "running" ∨ i.state = "stopping" ∨ i.state = "stopped")
    (h0 : o.terminateResults 0 = .ok []) (h1 : o.terminateResults 1 = .ok [])
    (h2 : o.terminateResults 2 = .ok []) :
    terminateEC2Instance id false t o =
      { result := .error ("force termination failed for instance " ++ id ++
          ": unexpected response from terminate instances API"),
        describeCalls := 1, terminateCalls := 3, stopCalls := 0,
        sleeps := [], waitBudget := none } := by
  rcases hs with hs | hs | hs <;>
    simp [terminateEC2Instance, gracefulLoop, h, hs, h0, h1, h2]

/-- Claim C10, witness: `graceful_empty_response_fallthrough` on a
concrete oracle always answering an empty terminating-instances list. -/
theorem graceful_empty_response_fallthrough_witness :
    terminateEC2Instance "i-a" false 300 emptyRespOracle =
      { result := .error "force termination failed for instance i-a: unexpected response from terminate instances API",
        describeCalls := 1, terminateCalls := 3, stopCalls := 0,
        sleeps := [], waitBudget := none } :=
  graceful_empty_response_fallthrough "i-a" 300 emptyRespOracle _ [] []
    rfl (Or.inl rfl) rfl rfl rfl
